import Mathlib

/-
Verification of the grinder repository: a shallow embedding of its three
source files (src/buffer.rs, src/tensor.rs, src/tensor/host.rs) and proofs
of the specified properties.

Modelling conventions:
  - Rust `Vec<T>` and slices become `List T`.
  - `shape.iter().product()` becomes `List.prod` on the shape list.
  - Fallible calls (`Result<_, Error>`) become `Except Error _`.
  - A Rust method taking `&mut` is state passing: the function returns the
    post-state next to the `Result` value.
  - A panic (a failed `assert_eq!`) is `Option`: `none` models the panic.
  - Uninitialized memory (`Vec::with_capacity` + `set_len`) is a list of
    unspecified values, supplied as a function `junk : Nat -> T`.
  - `Rc<Buffer<T>>` in the copy-on-write tensor becomes an explicit heap of
    buffers indexed by `Nat` (the pointer), with an explicit strong count,
    mirroring the documented semantics of `Rc::clone` and `Rc::make_mut`.
  - The external `ocl` device backend is a parameter: device allocation is
    an arbitrary function returning either a device buffer or an error code.
-/

/-- The crate error type, reconstructed from its uses in src: `Error::BadSize`
in src/src/tensor.rs and `Error::OclError(e)` in src/src/buffer.rs; the ocl
error payload is modelled as a numeric code. -/
inductive Error where
  | BadSize : Error
  | OclError : Nat → Error
deriving DecidableEq

/-- The external `ocl::Queue` handle: a raw pointer (`as_ptr`) plus cached
metadata that is not part of the pointer identity. -/
structure Queue where
  ptr : Nat
  deviceVersion : Option Nat

/-- `Location` from src/src/buffer.rs: host memory or a device queue. -/
inductive Location where
  | Host : Location
  | Device : Queue → Location

/-- `impl PartialEq for Location` from src/src/buffer.rs: `Host` equals only
`Host`; two `Device` locations compare their queue raw pointers. -/
def Location.eq : Location → Location → Bool
  | .Host, .Host => true
  | .Host, .Device _ => false
  | .Device sq, .Device oq => sq.ptr == oq.ptr
  | .Device _, .Host => false

/-- `HostBuffer<T>` from src/src/buffer.rs: a contiguous host array. -/
structure HostBuffer (T : Type) where
  vec : List T

/-- `HostBuffer::new_uninit`: `len` elements of unspecified contents
(`Vec::with_capacity(len)` then `set_len(len)`); always `Ok`. -/
def HostBuffer.new_uninit (T : Type) (len : Nat) (junk : Nat → T) :
    Except Error (HostBuffer T) :=
  .ok ⟨(List.range len).map junk⟩

/-- `HostBuffer::new_filled`: `vec.resize(len, value)`; always `Ok`. -/
def HostBuffer.new_filled (len : Nat) (value : T) : Except Error (HostBuffer T) :=
  .ok ⟨List.replicate len value⟩

/-- `HostBuffer::len`. -/
def HostBuffer.len (b : HostBuffer T) : Nat :=
  b.vec.length

/-- `DeviceBuffer<T>` from src/src/buffer.rs (feature `device`): a handle to
an external ocl allocation — its associated queue and its length. -/
structure DeviceBuffer (T : Type) where
  queue : Queue
  len : Nat

/-- `Buffer<T>` from src/src/buffer.rs: tagged union of the two backends. -/
inductive Buffer (T : Type) where
  | Host : HostBuffer T → Buffer T
  | Device : DeviceBuffer T → Buffer T

/-- `Buffer::new_uninit`: dispatch on location; the device branch calls the
external ocl builder, modelled by the parameter `devAlloc` (an error code on
failure, wrapped into `Error::OclError` as in src). -/
def Buffer.new_uninit (devAlloc : Queue → Nat → Except Nat (DeviceBuffer T))
    (location : Location) (len : Nat) (junk : Nat → T) : Except Error (Buffer T) :=
  match location with
  | .Host => (HostBuffer.new_uninit T len junk).map Buffer.Host
  | .Device queue => ((devAlloc queue len).mapError Error.OclError).map Buffer.Device

/-- `Buffer::new_filled`: dispatch on location; the device branch enqueues a
fill through the external builder, modelled by the parameter `devFill`. -/
def Buffer.new_filled (devFill : Queue → Nat → T → Except Nat (DeviceBuffer T))
    (location : Location) (len : Nat) (value : T) : Except Error (Buffer T) :=
  match location with
  | .Host => (HostBuffer.new_filled len value).map Buffer.Host
  | .Device queue => ((devFill queue len value).mapError Error.OclError).map Buffer.Device

/-- `Buffer::len`: dispatch on the active variant. -/
def Buffer.len : Buffer T → Nat
  | .Host hbuf => hbuf.len
  | .Device dbuf => dbuf.len

/-- `Buffer::location`: `Host`, or the queue associated with the device
allocation (`default_queue`). -/
def Buffer.location : Buffer T → Location
  | .Host _ => Location.Host
  | .Device dbuf => Location.Device dbuf.queue

/-
The owned-data tensor of src/src/tensor.rs: `dims: Vec<usize>` plus
`data: Vec<T>`; no sharing, every operation owns or clones its data.
-/
namespace Owned

/-- `Tensor<T>` from src/src/tensor.rs. -/
structure Tensor (T : Type) where
  dims : List Nat
  data : List T

/-- `Tensor::zeros` from src/src/tensor.rs: `vec.resize(product, T::zero())`. -/
def Tensor.zeros (T : Type) [Zero T] (shape : List Nat) : Tensor T :=
  ⟨shape, List.replicate shape.prod 0⟩

/-- `Tensor::shape` from src/src/tensor.rs. -/
def Tensor.shape (t : Tensor T) : List Nat :=
  t.dims

/-- `Tensor::reshape` from src/src/tensor.rs: succeeds with a clone of the
data under the new dims iff `self.data.len() == shape.iter().product()`,
otherwise `Err(Error::BadSize)`. -/
def Tensor.reshape (t : Tensor T) (shape : List Nat) : Except Error (Tensor T) :=
  if t.data.length = shape.prod then .ok ⟨shape, t.data⟩
  else .error Error.BadSize

/-- `Tensor::load` from src/src/tensor.rs: `dst.copy_from_slice(data)` when
lengths agree, else `Err(Error::BadSize)`; returns the post-state of `dst`. -/
def Tensor.load (t : Tensor T) (dst : List T) : Except Error Unit × List T :=
  if t.data.length = dst.length then (.ok (), t.data)
  else (.error Error.BadSize, dst)

/-- `Tensor::store` from src/src/tensor.rs: `data.copy_from_slice(src)` when
lengths agree, else `Err(Error::BadSize)`; returns the post-state of `self`. -/
def Tensor.store (t : Tensor T) (src : List T) : Except Error Unit × Tensor T :=
  if t.data.length = src.length then (.ok (), ⟨t.dims, src⟩)
  else (.error Error.BadSize, t)

/-- The length invariant for the owned tensor: the product of the dims
equals the length of the data. -/
def wf (t : Tensor T) : Prop :=
  t.data.length = t.dims.prod

end Owned

/-
The copy-on-write tensor of src/src/tensor/host.rs: `shape: Vec<usize>` plus
`buffer: Rc<Buffer<T>>`. The `Rc` heap is explicit: `Heap.bufs` maps a
pointer (a `Nat`) to the buffer contents living there, `Heap.rc` maps it to
its strong count, and `Heap.next` is the next fresh pointer. `Rc::new`
allocates at `next` with count 1; `Rc::clone` increments the count;
`Rc::make_mut` clones the contents to a fresh pointer when the count
exceeds 1 (the copy-on-write trigger), else mutates in place.
-/
namespace Cow

/-- `Tensor<T>` from src/src/tensor/host.rs: a shape and a pointer to a
shared buffer in the heap. -/
structure Tensor where
  shape : List Nat
  buf : Nat

/-- The explicit heap standing for the `Rc<Buffer<T>>` pointers. -/
structure Heap (T : Type) where
  bufs : Nat → List T
  rc : Nat → Nat
  next : Nat

/-- Modelled from the spec: `Buffer::load` of the host-only crate variant
used by src/src/tensor/host.rs is not under src/; the spec says `load`
copies the full contents into a destination of matching length and fails
with the size-mismatch error, with no mutation, otherwise. -/
def bufLoad (buf dst : List T) : Except Error Unit × List T :=
  if dst.length = buf.length then (.ok (), buf)
  else (.error Error.BadSize, dst)

/-- Modelled from the spec: `Buffer::store` of the host-only crate variant
used by src/src/tensor/host.rs is not under src/; the spec says `store`
overwrites the contents from a source of matching length and fails with the
size-mismatch error, with no mutation, otherwise. -/
def bufStore (buf src : List T) : Except Error Unit × List T :=
  if src.length = buf.length then (.ok (), src)
  else (.error Error.BadSize, buf)

/-- `Tensor::from_shared_buffer` from src/src/tensor/host.rs:
`assert_eq!(rc_buffer.len(), shape.iter().product())` — `none` models the
panic of a failed assertion — then pairs the shape with the pointer. -/
def from_shared_buffer (σ : Heap T) (i : Nat) (shape : List Nat) : Option Tensor :=
  if (σ.bufs i).length = shape.prod then some ⟨shape, i⟩ else none

/-- `Rc::new`: place the contents at the fresh pointer with strong count 1. -/
def rcAlloc (σ : Heap T) (c : List T) : Heap T × Nat :=
  (⟨fun j => if j = σ.next then c else σ.bufs j,
    fun j => if j = σ.next then 1 else σ.rc j,
    σ.next + 1⟩, σ.next)

/-- `Tensor::from_buffer` from src/src/tensor/host.rs:
`from_shared_buffer(Rc::new(buffer), shape)`. -/
def from_buffer (σ : Heap T) (c : List T) (shape : List Nat) :
    Option (Heap T × Tensor) :=
  let p := rcAlloc σ c
  (from_shared_buffer p.1 p.2 shape).map (fun t => (p.1, t))

/-- `Tensor::new_uninit` from src/src/tensor/host.rs: an uninitialized
buffer of `shape.iter().product()` elements. -/
def new_uninit (σ : Heap T) (shape : List Nat) (junk : Nat → T) :
    Option (Heap T × Tensor) :=
  from_buffer σ ((List.range shape.prod).map junk) shape

/-- `Tensor::new_filled` from src/src/tensor/host.rs: a buffer of
`shape.iter().product()` copies of `value`. -/
def new_filled (σ : Heap T) (shape : List Nat) (value : T) :
    Option (Heap T × Tensor) :=
  from_buffer σ (List.replicate shape.prod value) shape

/-- `Tensor::new_zeroed` from src/src/tensor/host.rs:
`new_filled(shape, T::zero())`. -/
def new_zeroed (T : Type) [Zero T] (σ : Heap T) (shape : List Nat) :
    Option (Heap T × Tensor) :=
  new_filled σ shape 0

/-- `Tensor::reshape` from src/src/tensor/host.rs:
`from_shared_buffer(self.buffer.clone(), shape)` — `Rc::clone` increments
the strong count, then the sharing constructor runs its assertion; there is
no validation and no error value at this layer. -/
def reshape (σ : Heap T) (t : Tensor) (shape : List Nat) :
    Option (Heap T × Tensor) :=
  let σ' : Heap T :=
    ⟨σ.bufs, fun j => if j = t.buf then σ.rc t.buf + 1 else σ.rc j, σ.next⟩
  (from_shared_buffer σ' t.buf shape).map (fun b => (σ', b))

/-- `Tensor::load` from src/src/tensor/host.rs: `self.buffer.load(dst)`. -/
def load (σ : Heap T) (t : Tensor) (dst : List T) : Except Error Unit × List T :=
  bufLoad (σ.bufs t.buf) dst

/-- `Rc::make_mut` on `self.buffer`: when the strong count exceeds 1, clone
the contents to the fresh pointer, decrement the old count, and redirect the
tensor; otherwise leave it in place. -/
def makeMut (σ : Heap T) (t : Tensor) : Heap T × Tensor :=
  if 1 < σ.rc t.buf then
    (⟨fun j => if j = σ.next then σ.bufs t.buf else σ.bufs j,
      fun j => if j = σ.next then 1
               else if j = t.buf then σ.rc t.buf - 1 else σ.rc j,
      σ.next + 1⟩, ⟨t.shape, σ.next⟩)
  else (σ, t)

/-- `Tensor::store` from src/src/tensor/host.rs:
`Rc::make_mut(&mut self.buffer).store(src)` — copy-on-write, then the
buffer-level store writes through the now-unique pointer. -/
def store (σ : Heap T) (t : Tensor) (src : List T) :
    Except Error Unit × Heap T × Tensor :=
  let p := makeMut σ t
  let q := bufStore (p.1.bufs p.2.buf) src
  (q.1, ⟨fun j => if j = p.2.buf then q.2 else p.1.bufs j, p.1.rc, p.1.next⟩, p.2)

/-- The length invariant for the copy-on-write tensor: its pointer is live
and the buffer there has exactly `shape.iter().product()` elements. -/
def wf (σ : Heap T) (t : Tensor) : Prop :=
  t.buf < σ.next ∧ (σ.bufs t.buf).length = t.shape.prod

/-- A tensor holds a strong reference: its pointer is live and counted. -/
def owns (σ : Heap T) (t : Tensor) : Prop :=
  t.buf < σ.next ∧ 1 ≤ σ.rc t.buf

end Cow

/-
Concrete instances used by witnesses: a heap holding one six-element
buffer with strong count 1, and the tensor of shape 2 by 3 viewing it.
-/

def exHeap : Cow.Heap Int :=
  ⟨fun _ => [1, 2, 3, 4, 5, 6], fun _ => 1, 1⟩

def exTensor : Cow.Tensor :=
  ⟨[2, 3], 0⟩

/-- Claim C7: `Location` equality is `Host == Host` always; `Host` never
equals a `Device` location; and two `Device` locations are equal exactly
when their queue handles hold the identical raw pointer, irrespective of
any other queue data. -/
theorem location_eq_identity :
    (Location.eq Location.Host Location.Host = true) ∧
    (∀ q : Queue, Location.eq Location.Host (Location.Device q) = false ∧
      Location.eq (Location.Device q) Location.Host = false) ∧
    (∀ a b : Queue,
      (Location.eq (Location.Device a) (Location.Device b) = true ↔ a.ptr = b.ptr)) := by
  refine ⟨rfl, fun q => ⟨rfl, rfl⟩, fun a b => ?_⟩
  simp [Location.eq]

/-- Claim C9: allocation at `Location::Host` never fails — both
`Buffer::new_uninit` and `Buffer::new_filled` return `Ok` for every length,
whatever the (device-only) backend allocator would do. -/
theorem host_alloc_total (T : Type) (devU : Queue → Nat → Except Nat (DeviceBuffer T))
    (devF : Queue → Nat → T → Except Nat (DeviceBuffer T))
    (len : Nat) (junk : Nat → T) (v : T) :
    (∃ b, Buffer.new_uninit devU Location.Host len junk = .ok b) ∧
    (∃ b, Buffer.new_filled devF Location.Host len v = .ok b) :=
  ⟨⟨_, rfl⟩, ⟨_, rfl⟩⟩

/-- Claim C5: a zero-initialized tensor (`Tensor::zeros` of the owned
tensor, `Tensor::new_zeroed` of the copy-on-write tensor) loaded into a
destination of length `shape.iter().product()` succeeds and fills the
destination entirely with zero. -/
theorem zeroed_load_all_zero (T : Type) [Zero T] (s : List Nat) (d : List T)
    (σ : Cow.Heap T) (s2 : List Nat) (d2 : List T)
    (h1 : d.length = s.prod) (h2 : d2.length = s2.prod) :
    ((Owned.Tensor.zeros T s).load d = (.ok (), List.replicate s.prod (0 : T)) ∧
      ∀ x ∈ ((Owned.Tensor.zeros T s).load d).2, x = (0 : T)) ∧
    (∃ σ' t, Cow.new_zeroed T σ s2 = some (σ', t) ∧
      Cow.load σ' t d2 = (.ok (), List.replicate s2.prod (0 : T)) ∧
      ∀ x ∈ (Cow.load σ' t d2).2, x = (0 : T)) := by
  constructor
  · constructor
    · simp [Owned.Tensor.zeros, Owned.Tensor.load, h1]
    · intro x hx
      simp [Owned.Tensor.zeros, Owned.Tensor.load, h1, List.mem_replicate] at hx
      exact hx.2
  · refine ⟨⟨fun j => if j = σ.next then List.replicate s2.prod (0 : T) else σ.bufs j,
      fun j => if j = σ.next then 1 else σ.rc j, σ.next + 1⟩, ⟨s2, σ.next⟩, ?_, ?_, ?_⟩
    · simp [Cow.new_zeroed, Cow.new_filled, Cow.from_buffer, Cow.rcAlloc,
        Cow.from_shared_buffer]
    · simp [Cow.load, Cow.bufLoad, h2]
    · intro x hx
      simp [Cow.load, Cow.bufLoad, h2, List.mem_replicate] at hx
      exact hx.2

/-- Closed instance of `zeroed_load_all_zero`: shape 2 by 3 over the
integers, both destinations of length 6. -/
theorem zeroed_load_all_zero_witness :
    ([0, 0, 0, 0, 0, 0] : List Int).length = ([2, 3] : List Nat).prod ∧
    (((Owned.Tensor.zeros Int [2, 3]).load [0, 0, 0, 0, 0, 0]
        = (.ok (), List.replicate ([2, 3] : List Nat).prod (0 : Int)) ∧
      ∀ x ∈ ((Owned.Tensor.zeros Int [2, 3]).load [0, 0, 0, 0, 0, 0]).2, x = (0 : Int)) ∧
    (∃ σ' t, Cow.new_zeroed Int exHeap [2, 3] = some (σ', t) ∧
      Cow.load σ' t [0, 0, 0, 0, 0, 0]
        = (.ok (), List.replicate ([2, 3] : List Nat).prod (0 : Int)) ∧
      ∀ x ∈ (Cow.load σ' t [0, 0, 0, 0, 0, 0]).2, x = (0 : Int))) :=
  ⟨by decide,
    zeroed_load_all_zero Int [2, 3] [0, 0, 0, 0, 0, 0] exHeap [2, 3]
      [0, 0, 0, 0, 0, 0] (by decide) (by decide)⟩

/-- Claim C6: `Tensor::new_filled` of the copy-on-write tensor, loaded into
a destination of length `shape.iter().product()`, succeeds and yields a
destination in which every element equals the fill value. -/
theorem filled_load_all_value (T : Type) (σ : Cow.Heap T) (s : List Nat) (v : T)
    (d : List T) (h : d.length = s.prod) :
    ∃ σ' t, Cow.new_filled σ s v = some (σ', t) ∧
      Cow.load σ' t d = (.ok (), List.replicate s.prod v) ∧
      ∀ x ∈ (Cow.load σ' t d).2, x = v := by
  refine ⟨⟨fun j => if j = σ.next then List.replicate s.prod v else σ.bufs j,
    fun j => if j = σ.next then 1 else σ.rc j, σ.next + 1⟩, ⟨s, σ.next⟩, ?_, ?_, ?_⟩
  · simp [Cow.new_filled, Cow.from_buffer, Cow.rcAlloc, Cow.from_shared_buffer]
  · simp [Cow.load, Cow.bufLoad, h]
  · intro x hx
    simp [Cow.load, Cow.bufLoad, h, List.mem_replicate] at hx
    exact hx.2

/-- Closed instance of `filled_load_all_value`: shape 4, fill value 7,
destination of length 4. -/
theorem filled_load_all_value_witness :
    ([0, 0, 0, 0] : List Int).length = ([4] : List Nat).prod ∧
    (∃ σ' t, Cow.new_filled exHeap [4] (7 : Int) = some (σ', t) ∧
      Cow.load σ' t [0, 0, 0, 0] = (.ok (), List.replicate ([4] : List Nat).prod (7 : Int)) ∧
      ∀ x ∈ (Cow.load σ' t [0, 0, 0, 0]).2, x = (7 : Int)) :=
  ⟨by decide, filled_load_all_value Int exHeap [4] 7 [0, 0, 0, 0] (by decide)⟩

/-- Claim C2 (amended): for the owned tensor of src/src/tensor.rs, whose
`reshape` returns a `Result`, reshape succeeds exactly when the new shape
has the same element count as the current one, otherwise it returns the
size-mismatch error `Error::BadSize`; `reshape` takes the tensor immutably,
so the original is unchanged in every case. -/
theorem owned_reshape_checks_size (T : Type) (t : Owned.Tensor T) (s : List Nat)
    (hwf : Owned.wf t) :
    ((∃ t2, t.reshape s = .ok t2) ↔ s.prod = t.dims.prod) ∧
    (s.prod ≠ t.dims.prod → t.reshape s = .error Error.BadSize) ∧
    (s.prod = t.dims.prod → t.reshape s = .ok ⟨s, t.data⟩) := by
  have hw : t.data.length = t.dims.prod := hwf
  refine ⟨⟨?_, ?_⟩, ?_, ?_⟩
  · rintro ⟨t2, h⟩
    by_cases hd : t.data.length = s.prod
    · omega
    · simp [Owned.Tensor.reshape, hd] at h
  · intro h
    have hd : t.data.length = s.prod := by omega
    exact ⟨⟨s, t.data⟩, by simp [Owned.Tensor.reshape, hd]⟩
  · intro h
    have hd : ¬t.data.length = s.prod := by omega
    simp [Owned.Tensor.reshape, hd]
  · intro h
    have hd : t.data.length = s.prod := by omega
    simp [Owned.Tensor.reshape, hd]

/-- Closed instance of `owned_reshape_checks_size`: the 2 by 3 zero tensor
over the integers against the mismatched shape 4 (the spec scenario). -/
theorem owned_reshape_checks_size_witness :
    Owned.wf (Owned.Tensor.zeros Int [2, 3]) ∧
    (((∃ t2, (Owned.Tensor.zeros Int [2, 3]).reshape [4] = .ok t2) ↔
        ([4] : List Nat).prod = (Owned.Tensor.zeros Int [2, 3]).dims.prod) ∧
      (([4] : List Nat).prod ≠ (Owned.Tensor.zeros Int [2, 3]).dims.prod →
        (Owned.Tensor.zeros Int [2, 3]).reshape [4] = .error Error.BadSize) ∧
      (([4] : List Nat).prod = (Owned.Tensor.zeros Int [2, 3]).dims.prod →
        (Owned.Tensor.zeros Int [2, 3]).reshape [4]
          = .ok ⟨[4], (Owned.Tensor.zeros Int [2, 3]).data⟩)) :=
  ⟨by unfold Owned.wf; decide,
    owned_reshape_checks_size Int (Owned.Tensor.zeros Int [2, 3]) [4]
      (by unfold Owned.wf; decide)⟩

/-- Counterexample to claim C2 as stated over every tensor: the
copy-on-write tensor of src/src/tensor/host.rs, on a well-formed 2 by 3
tensor reshaped to the mismatched shape 4, does not return a size-mismatch
error value — its `reshape` has no error channel at all and the run dies in
the `assert_eq!` of `from_shared_buffer` (`none` models the panic). -/
theorem cow_reshape_no_error_value :
    Cow.wf exHeap exTensor ∧ ([4] : List Nat).prod ≠ exTensor.shape.prod ∧
    Cow.reshape exHeap exTensor [4] = none :=
  ⟨by unfold Cow.wf; decide, by decide, rfl⟩

/-- Claim C10: for the copy-on-write tensor, `reshape` with a shape whose
element count differs from the underlying buffer length halts in the
assertion of the internal sharing constructor `from_shared_buffer` (`none`
models the panic): no error value is returned and no tensor violating the
length invariant is produced. -/
theorem cow_reshape_mismatch_panics (T : Type) (σ : Cow.Heap T) (t : Cow.Tensor)
    (s : List Nat) (h : (σ.bufs t.buf).length ≠ s.prod) :
    Cow.reshape σ t s = none := by
  simp [Cow.reshape, Cow.from_shared_buffer, h]

/-- Closed instance of `cow_reshape_mismatch_panics`: the six-element buffer
reshaped to shape 5. -/
theorem cow_reshape_mismatch_panics_witness :
    (exHeap.bufs exTensor.buf).length ≠ ([5] : List Nat).prod ∧
    Cow.reshape exHeap exTensor [5] = none :=
  ⟨by decide, cow_reshape_mismatch_panics Int exHeap exTensor [5] (by decide)⟩

/-- Claim C4: for the owned tensor, `load` succeeds exactly when the
destination length equals the element count and `store` succeeds exactly
when the source length does; on mismatch each returns `Error::BadSize`
and leaves its target unchanged (`load` takes the tensor immutably, so it
never mutates the tensor at all). -/
theorem owned_load_store_size_guard (T : Type) (t : Owned.Tensor T)
    (dst src : List T) (hwf : Owned.wf t) :
    ((t.load dst).1 = .ok () ↔ dst.length = t.dims.prod) ∧
    (dst.length ≠ t.dims.prod → t.load dst = (.error Error.BadSize, dst)) ∧
    ((t.store src).1 = .ok () ↔ src.length = t.dims.prod) ∧
    (src.length ≠ t.dims.prod → t.store src = (.error Error.BadSize, t)) := by
  have hw : t.data.length = t.dims.prod := hwf
  refine ⟨?_, ?_, ?_, ?_⟩
  · by_cases hd : t.data.length = dst.length
    · simp [Owned.Tensor.load, hd]
      omega
    · simp [Owned.Tensor.load, hd]
      omega
  · intro h
    have hd : ¬t.data.length = dst.length := by omega
    simp [Owned.Tensor.load, hd]
  · by_cases hs : t.data.length = src.length
    · simp [Owned.Tensor.store, hs]
      omega
    · simp [Owned.Tensor.store, hs]
      omega
  · intro h
    have hs : ¬t.data.length = src.length := by omega
    simp [Owned.Tensor.store, hs]

/-- Closed instance of `owned_load_store_size_guard`: the 2 by 3 zero
tensor with a too-short destination and source of length 4. -/
theorem owned_load_store_size_guard_witness :
    Owned.wf (Owned.Tensor.zeros Int [2, 3]) ∧
    ((((Owned.Tensor.zeros Int [2, 3]).load [1, 2, 3, 4]).1 = .ok () ↔
        ([1, 2, 3, 4] : List Int).length = (Owned.Tensor.zeros Int [2, 3]).dims.prod) ∧
      (([1, 2, 3, 4] : List Int).length ≠ (Owned.Tensor.zeros Int [2, 3]).dims.prod →
        (Owned.Tensor.zeros Int [2, 3]).load [1, 2, 3, 4]
          = (.error Error.BadSize, [1, 2, 3, 4])) ∧
      (((Owned.Tensor.zeros Int [2, 3]).store [1, 2, 3, 4]).1 = .ok () ↔
        ([1, 2, 3, 4] : List Int).length = (Owned.Tensor.zeros Int [2, 3]).dims.prod) ∧
      (([1, 2, 3, 4] : List Int).length ≠ (Owned.Tensor.zeros Int [2, 3]).dims.prod →
        (Owned.Tensor.zeros Int [2, 3]).store [1, 2, 3, 4]
          = (.error Error.BadSize, Owned.Tensor.zeros Int [2, 3]))) :=
  ⟨by unfold Owned.wf; decide,
    owned_load_store_size_guard Int (Owned.Tensor.zeros Int [2, 3])
      [1, 2, 3, 4] [1, 2, 3, 4] (by unfold Owned.wf; decide)⟩

/-- Claim C3: storing contents of matching length and then loading into a
destination of matching length succeeds and yields exactly the stored
contents, for the owned tensor and for the copy-on-write tensor. -/
theorem store_load_roundtrip (T : Type) (t : Owned.Tensor T) (c d : List T)
    (σ : Cow.Heap T) (u : Cow.Tensor) (c2 d2 : List T)
    (h1 : Owned.wf t) (h2 : c.length = t.dims.prod) (h3 : d.length = t.dims.prod)
    (h4 : Cow.wf σ u) (h5 : c2.length = u.shape.prod) (h6 : d2.length = u.shape.prod) :
    ((t.store c).1 = .ok () ∧ (t.store c).2.load d = (.ok (), c)) ∧
    ((Cow.store σ u c2).1 = .ok () ∧
      Cow.load (Cow.store σ u c2).2.1 (Cow.store σ u c2).2.2 d2 = (.ok (), c2)) := by
  have hw : t.data.length = t.dims.prod := h1
  have hc : t.data.length = c.length := by omega
  have hd : c.length = d.length := by omega
  obtain ⟨hu1, hu2⟩ := h4
  have hcl : c2.length = (σ.bufs u.buf).length := by omega
  have hdl : d2.length = c2.length := by omega
  constructor
  · constructor
    · simp [Owned.Tensor.store, hc]
    · simp [Owned.Tensor.store, Owned.Tensor.load, hc, hd]
  · by_cases hrc : 1 < σ.rc u.buf
    · constructor
      · simp [Cow.store, Cow.makeMut, Cow.bufStore, hrc, hcl]
      · simp [Cow.store, Cow.makeMut, Cow.load, Cow.bufStore, Cow.bufLoad, hrc, hcl, hdl]
    · constructor
      · simp [Cow.store, Cow.makeMut, Cow.bufStore, hrc, hcl]
      · simp [Cow.store, Cow.makeMut, Cow.load, Cow.bufStore, Cow.bufLoad, hrc, hcl, hdl]

/-- Closed instance of `store_load_roundtrip`: both tensors of shape 2 by 3
with six stored elements read back. -/
theorem store_load_roundtrip_witness :
    Owned.wf (Owned.Tensor.zeros Int [2, 3]) ∧ Cow.wf exHeap exTensor ∧
    ((((Owned.Tensor.zeros Int [2, 3]).store [1, 2, 3, 4, 5, 6]).1 = .ok () ∧
      ((Owned.Tensor.zeros Int [2, 3]).store [1, 2, 3, 4, 5, 6]).2.load [0, 0, 0, 0, 0, 0]
        = (.ok (), [1, 2, 3, 4, 5, 6])) ∧
    ((Cow.store exHeap exTensor [9, 8, 7, 6, 5, 4]).1 = .ok () ∧
      Cow.load (Cow.store exHeap exTensor [9, 8, 7, 6, 5, 4]).2.1
          (Cow.store exHeap exTensor [9, 8, 7, 6, 5, 4]).2.2 [0, 0, 0, 0, 0, 0]
        = (.ok (), [9, 8, 7, 6, 5, 4]))) :=
  ⟨by unfold Owned.wf; decide, by unfold Cow.wf; decide,
    store_load_roundtrip Int (Owned.Tensor.zeros Int [2, 3]) [1, 2, 3, 4, 5, 6]
      [0, 0, 0, 0, 0, 0] exHeap exTensor [9, 8, 7, 6, 5, 4] [0, 0, 0, 0, 0, 0]
      (by unfold Owned.wf; decide) (by decide) (by decide)
      (by unfold Cow.wf; decide) (by decide) (by decide)⟩

/-- Claim C1: copy-on-write isolation. From a tensor holding a live,
counted buffer, `reshape` to a shape of equal element count yields a
sibling sharing the buffer; because the strong count now exceeds one,
`store` on the sibling goes through the `Rc::make_mut` clone, so a later
`load` from the original tensor observes exactly what it observed before
the store. -/
theorem cow_store_isolation (T : Type) (σ : Cow.Heap T) (a : Cow.Tensor)
    (s2 : List Nat) (x dst : List T)
    (h1 : Cow.owns σ a) (h2 : (σ.bufs a.buf).length = s2.prod)
    (h3 : x.length = s2.prod) :
    ∃ σ1 b, Cow.reshape σ a s2 = some (σ1, b) ∧
      Cow.load (Cow.store σ1 b x).2.1 a dst = Cow.load σ a dst := by
  obtain ⟨hlt, hrc⟩ := h1
  refine ⟨⟨σ.bufs, fun j => if j = a.buf then σ.rc a.buf + 1 else σ.rc j, σ.next⟩,
    ⟨s2, a.buf⟩, ?_, ?_⟩
  · simp [Cow.reshape, Cow.from_shared_buffer, h2]
  · have hgt : 1 < σ.rc a.buf + 1 := by omega
    have hne : a.buf ≠ σ.next := by omega
    simp [Cow.store, Cow.makeMut, Cow.load, hgt, hne]

/-- Closed instance of `cow_store_isolation`: the 2 by 3 tensor over the
six-element buffer, reshaped to 3 by 2, the sibling overwritten. -/
theorem cow_store_isolation_witness :
    Cow.owns exHeap exTensor ∧
    ∃ σ1 b, Cow.reshape exHeap exTensor [3, 2] = some (σ1, b) ∧
      Cow.load (Cow.store σ1 b [9, 9, 9, 9, 9, 9]).2.1 exTensor [0, 0, 0, 0, 0, 0]
        = Cow.load exHeap exTensor [0, 0, 0, 0, 0, 0] :=
  ⟨by unfold Cow.owns; decide,
    cow_store_isolation Int exHeap exTensor [3, 2] [9, 9, 9, 9, 9, 9]
      [0, 0, 0, 0, 0, 0] (by unfold Cow.owns; decide) (by decide) (by decide)⟩

/-- The buffer-level store leaves the buffer length unchanged: it writes a
source of equal length or, on mismatch, writes nothing. -/
theorem bufStore_len (T : Type) (buf src : List T) :
    (Cow.bufStore buf src).2.length = buf.length := by
  unfold Cow.bufStore
  by_cases h : src.length = buf.length
  · simp [h]
  · simp [h]

/-- `store` never retires a pointer: the fresh-pointer bound only grows. -/
theorem store_heap_next (T : Type) (σ : Cow.Heap T) (t : Cow.Tensor) (src : List T) :
    σ.next ≤ (Cow.store σ t src).2.1.next := by
  unfold Cow.store Cow.makeMut
  by_cases hrc : 1 < σ.rc t.buf
  · simp [hrc]
  · simp [hrc]

/-- `store` preserves the length of every live buffer: it writes either
through a fresh clone or in place with the length-preserving buffer store. -/
theorem store_bufs_length (T : Type) (σ : Cow.Heap T) (t : Cow.Tensor) (src : List T)
    (j : Nat) (hj : j < σ.next) :
    ((Cow.store σ t src).2.1.bufs j).length = (σ.bufs j).length := by
  unfold Cow.store Cow.makeMut
  by_cases hrc : 1 < σ.rc t.buf
  · have hne : j ≠ σ.next := by omega
    simp [hrc, hne]
  · by_cases he : j = t.buf
    · simp [hrc, he, bufStore_len]
    · simp [hrc, he]

/-- Claim C8: the tensor length invariant — the product of the shape
entries equals the length of the underlying buffer — holds for every
tensor built by the public constructors and is preserved by `reshape` and
`store`, in the owned tensor and in the copy-on-write tensor (where a
`store` also preserves the invariant of every other live tensor). -/
theorem shape_buffer_length_invariant (T : Type) [Zero T] :
    (∀ s : List Nat, Owned.wf (Owned.Tensor.zeros T s)) ∧
    (∀ (t : Owned.Tensor T) (s : List Nat) (t2 : Owned.Tensor T),
      Owned.wf t → t.reshape s = .ok t2 → Owned.wf t2) ∧
    (∀ (t : Owned.Tensor T) (src : List T),
      Owned.wf t → Owned.wf (t.store src).2) ∧
    (∀ (σ : Cow.Heap T) (s : List Nat) (v : T) (σ2 : Cow.Heap T) (t : Cow.Tensor),
      Cow.new_filled σ s v = some (σ2, t) → Cow.wf σ2 t) ∧
    (∀ (σ : Cow.Heap T) (s : List Nat) (junk : Nat → T) (σ2 : Cow.Heap T) (t : Cow.Tensor),
      Cow.new_uninit σ s junk = some (σ2, t) → Cow.wf σ2 t) ∧
    (∀ (σ : Cow.Heap T) (t : Cow.Tensor) (s : List Nat) (σ2 : Cow.Heap T) (t2 : Cow.Tensor),
      Cow.wf σ t → Cow.reshape σ t s = some (σ2, t2) → Cow.wf σ2 t2 ∧ Cow.wf σ2 t) ∧
    (∀ (σ : Cow.Heap T) (t : Cow.Tensor) (src : List T),
      Cow.wf σ t → Cow.wf (Cow.store σ t src).2.1 (Cow.store σ t src).2.2) ∧
    (∀ (σ : Cow.Heap T) (t u : Cow.Tensor) (src : List T),
      Cow.wf σ u → Cow.wf (Cow.store σ t src).2.1 u) := by
  refine ⟨?_, ?_, ?_, ?_, ?_, ?_, ?_, ?_⟩
  · intro s
    simp [Owned.wf, Owned.Tensor.zeros]
  · intro t s t2 hw h
    unfold Owned.Tensor.reshape at h
    by_cases hd : t.data.length = s.prod
    · rw [if_pos hd] at h
      injection h with h2
      subst h2
      exact hd
    · rw [if_neg hd] at h
      exact absurd h (by simp)
  · intro t src hw
    have hw2 : t.data.length = t.dims.prod := hw
    unfold Owned.wf Owned.Tensor.store
    by_cases hs : t.data.length = src.length
    · simp [hs]
      omega
    · simp [hs]
      exact hw2
  · intro σ s v σ2 t h
    simp [Cow.new_filled, Cow.from_buffer, Cow.rcAlloc, Cow.from_shared_buffer] at h
    obtain ⟨h1, h2⟩ := h
    subst h1
    subst h2
    exact ⟨Nat.lt_succ_self σ.next, by simp⟩
  · intro σ s junk σ2 t h
    simp [Cow.new_uninit, Cow.from_buffer, Cow.rcAlloc, Cow.from_shared_buffer] at h
    obtain ⟨h1, h2⟩ := h
    subst h1
    subst h2
    exact ⟨Nat.lt_succ_self σ.next, by simp⟩
  · intro σ t s σ2 t2 hw h
    obtain ⟨hw1, hw2⟩ := hw
    by_cases hd : (σ.bufs t.buf).length = s.prod
    · simp [Cow.reshape, Cow.from_shared_buffer, hd] at h
      obtain ⟨h1, h2⟩ := h
      subst h1
      subst h2
      exact ⟨⟨hw1, hd⟩, hw1, hw2⟩
    · simp [Cow.reshape, Cow.from_shared_buffer, hd] at h
  · intro σ t src hw
    obtain ⟨hw1, hw2⟩ := hw
    by_cases hrc : 1 < σ.rc t.buf
    · refine ⟨?_, ?_⟩
      · simp [Cow.store, Cow.makeMut, hrc]
      · simp [Cow.store, Cow.makeMut, hrc, bufStore_len, hw2]
    · refine ⟨?_, ?_⟩
      · simp [Cow.store, Cow.makeMut, hrc]
        exact hw1
      · simp [Cow.store, Cow.makeMut, hrc, bufStore_len, hw2]
  · intro σ t u src hw
    obtain ⟨hw1, hw2⟩ := hw
    refine ⟨lt_of_lt_of_le hw1 (store_heap_next T σ t src), ?_⟩
    rw [store_bufs_length T σ t src u.buf hw1]
    exact hw2

/-- Closed instance of `shape_buffer_length_invariant`: the invariant of
the 2 by 3 zero tensor, and of the copy-on-write tensor after a store. -/
theorem shape_buffer_length_invariant_witness :
    Cow.wf exHeap exTensor ∧
    Owned.wf (Owned.Tensor.zeros Int [2, 3]) ∧
    Cow.wf (Cow.store exHeap exTensor [9, 9, 9, 9, 9, 9]).2.1
      (Cow.store exHeap exTensor [9, 9, 9, 9, 9, 9]).2.2 :=
  ⟨by unfold Cow.wf; decide,
    (shape_buffer_length_invariant Int).1 [2, 3],
    (shape_buffer_length_invariant Int).2.2.2.2.2.2.1 exHeap exTensor
      [9, 9, 9, 9, 9, 9] (by unfold Cow.wf; decide)⟩
